import Mathlib

/-!
# Verification of `changedetectionio/static/js/inline-edit.js`

A shallow embedding of the `InlineEdit` controller: the field-specific save
routines (`saveTitle`, `saveWatchWords`, `saveInterval`, `saveTags`), the
toggle-button handler (`toggleOperation`), the socket acknowledgement handler
(`bindSocketEvents`' `update_result` listener), and the popover / edit-session
lifecycle (`bindEvents`, `createPopover`, `closePopover`, `cancelEdit`).

DOM state is modelled explicitly: a cell's markup becomes fields of a record,
the document's popover elements become a counter, a Socket.IO `emit` becomes an
appended entry in an event log, and a JS `Map` becomes an association list with
unique keys. `setTimeout` callbacks are folded into the "settled" result of a
routine, since no other controller action is interleaved with them in any of
the claims considered here.
-/

namespace InlineEdit

/-- The `updates` object of a `watch_update` payload. One constructor per
payload shape built in the source: `{title: v}`, `{block_words, trigger_words}`,
`{time_between_check_use_default: true}`,
`{time_between_check_use_default: false, time_between_check: {...}}`,
and `{tags: [...]}`. -/
inductive Updates where
  | titleField (value : String)
  | words (block_words trigger_words : List String)
  | intervalDefault
  | interval (weeks days hours minutes seconds : Nat)
  | tags (values : List String)
  deriving DecidableEq, Repr

/-- An event emitted on the socket: `watch_update` or `watch_operation`. -/
inductive Emit where
  | watchUpdate (uuid : String) (updates : Updates)
  | watchOperation (op : String) (uuid : String)
  deriving DecidableEq, Repr

/-! ## JS string helpers -/

/-- JS whitespace for `String.prototype.trim`: space, tab, and line
terminators (plus form feed and vertical tab). -/
def isJsWhitespace (c : Char) : Bool :=
  c = ' ' || c = '\t' || c = '\n' || c = '\r' || c = '\x0b' || c = '\x0c'

/-- JS `value.trim()`: strip leading and trailing whitespace. -/
def jsTrim (s : String) : String :=
  String.mk (((s.data.dropWhile isJsWhitespace).reverse.dropWhile isJsWhitespace).reverse)

/-- Helper for JS `value.split('\n')`: accumulate the current line until a
newline is met. -/
def splitNewlineAux : List Char → List Char → List (List Char)
  | [], acc => [acc.reverse]
  | c :: cs, acc =>
      if c = '\n' then acc.reverse :: splitNewlineAux cs []
      else splitNewlineAux cs (c :: acc)

/-- JS `value.split('\n')`. The empty string yields `[""]`, and a trailing
newline yields a trailing empty line, as in JS. -/
def jsSplitNewline (s : String) : List String :=
  (splitNewlineAux s.data []).map String.mk

/-! ## `saveTitle` (lines 177-220)

The title cell is modelled as a shell (the markup around the `.title-text`
span) plus the text content of the `.title-text` span; `originalHTML` in the
source is the pair of both at edit start. -/

/-- The title cell's markup: surrounding structure plus the text content of
its `.title-text` span. -/
structure TitleCell where
  shell : String
  titleText : String
  deriving DecidableEq, Repr

/-- The entry stored in `pendingUpdates` by `saveTitle`:
`{ cell, originalHTML, originalValue }`. -/
structure TitlePending where
  originalShell : String
  originalTitleText : String
  originalValue : String
  deriving DecidableEq, Repr

/-- The observable outcome of one `saveTitle` call: emitted socket events, the
`pendingUpdates` entry written (if any), the settled cell markup (after the
100ms optimistic-restore timeout in the socket branch), whether the transient
"Saving..." indicator was shown, the `editing` class, the value written to
`row.dataset.watchTitle` (if any), whether the cell was re-focused, and whether
`showSuccess` ran. -/
structure TitleSaveOut where
  emits : List Emit
  pendingSet : Option (String × TitlePending)
  cell : TitleCell
  savingShown : Bool
  editing : Bool
  rowTitleAttr : Option String
  focusedCell : Bool
  successShown : Bool
  deriving DecidableEq, Repr

/-- `saveTitle(value)` with the active edit's `originalValue`, pre-edit cell
markup `origCell`, watch `uuid`, and socket availability. Mirrors lines
177-220: equal value restores and returns; otherwise a pending entry is
recorded, `watch_update {title: value}` is emitted when a socket exists, and
the cell is restored with `.title-text` set to `value || originalValue`. -/
def saveTitle (value origValue : String) (origCell : TitleCell) (uuid : String)
    (hasSocket : Bool) : TitleSaveOut :=
  if value = origValue then
    { emits := []
      pendingSet := none
      cell := origCell
      savingShown := false
      editing := false
      rowTitleAttr := none
      focusedCell := false
      successShown := false }
  else
    { emits := if hasSocket then [Emit.watchUpdate uuid (Updates.titleField value)] else []
      pendingSet := some (uuid, ⟨origCell.shell, origCell.titleText, origValue⟩)
      cell := { shell := origCell.shell
                titleText := if value = "" then origValue else value }
      savingShown := hasSocket
      editing := false
      rowTitleAttr := some value
      focusedCell := false
      successShown := !hasSocket }

end InlineEdit

namespace InlineEdit

/-- C1: a title edit submitted with a (trimmed) value equal to the original
emits nothing, records no pending entry, and restores the pre-edit markup. -/
theorem saveTitle_unchanged_is_noop (raw origValue : String) (origCell : TitleCell)
    (uuid : String) (hasSocket : Bool) (h : jsTrim raw = origValue) :
    (saveTitle (jsTrim raw) origValue origCell uuid hasSocket).emits = [] ∧
    (saveTitle (jsTrim raw) origValue origCell uuid hasSocket).pendingSet = none ∧
    (saveTitle (jsTrim raw) origValue origCell uuid hasSocket).cell = origCell ∧
    (saveTitle (jsTrim raw) origValue origCell uuid hasSocket).editing = false := by
  simp [saveTitle, h]

theorem saveTitle_unchanged_is_noop_witness :
    (jsTrim "  Foo " = "Foo") ∧
    ((saveTitle (jsTrim "  Foo ") "Foo" ⟨"<s>", "Foo"⟩ "u1" true).emits = [] ∧
     (saveTitle (jsTrim "  Foo ") "Foo" ⟨"<s>", "Foo"⟩ "u1" true).pendingSet = none ∧
     (saveTitle (jsTrim "  Foo ") "Foo" ⟨"<s>", "Foo"⟩ "u1" true).cell = ⟨"<s>", "Foo"⟩ ∧
     (saveTitle (jsTrim "  Foo ") "Foo" ⟨"<s>", "Foo"⟩ "u1" true).editing = false) :=
  ⟨by decide, saveTitle_unchanged_is_noop "  Foo " "Foo" ⟨"<s>", "Foo"⟩ "u1" true (by decide)⟩

/-- C2 counterexample: submitting an empty string over the non-empty original
"Foo" DOES emit a `watch_update` carrying the empty title (and records a
pending entry), contradicting the claim that no empty-title update is ever
emitted. -/
theorem saveTitle_empty_emits_empty_title :
    (saveTitle "" "Foo" ⟨"<s>", "Foo"⟩ "u1" true).emits
      = [Emit.watchUpdate "u1" (Updates.titleField "")] ∧
    (saveTitle "" "Foo" ⟨"<s>", "Foo"⟩ "u1" true).pendingSet
      = some ("u1", ⟨"<s>", "Foo", "Foo"⟩) := by
  constructor <;> rfl

/-- C2 amended: with a non-empty original, submitting an empty string makes
only the DISPLAYED title text fall back to the prior value; the emitted
`watch_update` carries `title: ""` and `row.dataset.watchTitle` is set to the
empty string. -/
theorem saveTitle_empty_display_fallback (origValue : String) (origCell : TitleCell)
    (uuid : String) (h : origValue ≠ "") :
    (saveTitle "" origValue origCell uuid true).cell.titleText = origValue ∧
    (saveTitle "" origValue origCell uuid true).emits
      = [Emit.watchUpdate uuid (Updates.titleField "")] ∧
    (saveTitle "" origValue origCell uuid true).rowTitleAttr = some "" := by
  have h2 : ¬(("" : String) = origValue) := fun e => h e.symm
  simp [saveTitle, h2]

theorem saveTitle_empty_display_fallback_witness :
    ("Foo" ≠ "") ∧
    ((saveTitle "" "Foo" ⟨"<s>", "Foo"⟩ "u1" true).cell.titleText = "Foo" ∧
     (saveTitle "" "Foo" ⟨"<s>", "Foo"⟩ "u1" true).emits
       = [Emit.watchUpdate "u1" (Updates.titleField "")] ∧
     (saveTitle "" "Foo" ⟨"<s>", "Foo"⟩ "u1" true).rowTitleAttr = some "") :=
  ⟨by decide, saveTitle_empty_display_fallback "Foo" ⟨"<s>", "Foo"⟩ "u1" (by decide)⟩

/-! ## Watch words (`editWatchWords` save handler, lines 248-258, and
`saveWatchWords`, lines 264-297) -/

/-- The textarea value processing of the save-button handler (lines 249-256):
`value.split('\n').map(w => w.trim()).filter(w => w)`. -/
def processWords (input : String) : List String :=
  ((jsSplitNewline input).map jsTrim).filter (fun w => w ≠ "")

/-- The `.words-summary` markup written by `saveWatchWords` (lines 284-293). -/
inductive WordsSummary where
  | counts (blockCount trigCount : Nat)
  | noWords
  deriving DecidableEq, Repr

/-- Observable outcome of `saveWatchWords`: emitted events, the pending-map
key written, the two `row.dataset` attributes, and the summary markup. The
routine ends with `closePopover(); showSuccess(cell)`. -/
structure WordsSaveOut where
  emits : List Emit
  pendingUuid : Option String
  rowBlockWordsAttr : String
  rowTriggerWordsAttr : String
  summary : WordsSummary
  deriving DecidableEq, Repr

/-- `saveWatchWords(uuid, blockWords, triggerWords, row, cell)`,
lines 264-297. -/
def saveWatchWords (uuid : String) (blockWords triggerWords : List String)
    (hasSocket : Bool) : WordsSaveOut :=
  { pendingUuid := some uuid
    emits :=
      if hasSocket then [Emit.watchUpdate uuid (Updates.words blockWords triggerWords)]
      else []
    rowBlockWordsAttr := String.intercalate "\n" blockWords
    rowTriggerWordsAttr := String.intercalate "\n" triggerWords
    summary :=
      if blockWords.length ≠ 0 ∨ triggerWords.length ≠ 0 then
        WordsSummary.counts blockWords.length triggerWords.length
      else WordsSummary.noWords }

/-- The `.btn-save` click handler bound in `editWatchWords` (lines 248-257):
process both textareas and call `saveWatchWords`. -/
def editWatchWordsSaveClick (uuid blockText triggerText : String)
    (hasSocket : Bool) : WordsSaveOut :=
  saveWatchWords uuid (processWords blockText) (processWords triggerText) hasSocket

/-- Specification-side description of the word-list transformation: the
trimmed forms of exactly those lines whose trimmed form is non-empty, in input
order. -/
def trimmedNonEmptyLines : List String → List String
  | [] => []
  | l :: rest =>
      if jsTrim l = "" then trimmedNonEmptyLines rest
      else jsTrim l :: trimmedNonEmptyLines rest

theorem map_trim_filter_eq_trimmedNonEmptyLines (ls : List String) :
    (ls.map jsTrim).filter (fun w => w ≠ "") = trimmedNonEmptyLines ls := by
  induction ls with
  | nil => rfl
  | cons l rest ih =>
      rw [List.map_cons, List.filter_cons]
      simp only [trimmedNonEmptyLines]
      by_cases h : jsTrim l = ""
      · rw [if_neg (by simp [h]), if_pos h, ih]
      · rw [if_pos (by simp [h]), if_neg h, ih]

theorem processWords_eq_trimmedNonEmptyLines (s : String) :
    processWords s = trimmedNonEmptyLines (jsSplitNewline s) :=
  map_trim_filter_eq_trimmedNonEmptyLines (jsSplitNewline s)

/-- C4: the emitted `block_words` and `trigger_words` arrays are exactly the
trimmed non-empty lines of the respective textarea inputs, in input order. -/
theorem editWatchWords_emits_trimmed_nonempty_lines (uuid blockText triggerText : String) :
    (editWatchWordsSaveClick uuid blockText triggerText true).emits =
      [Emit.watchUpdate uuid (Updates.words
        (trimmedNonEmptyLines (jsSplitNewline blockText))
        (trimmedNonEmptyLines (jsSplitNewline triggerText)))] := by
  show (saveWatchWords uuid (processWords blockText) (processWords triggerText) true).emits = _
  rw [processWords_eq_trimmedNonEmptyLines, processWords_eq_trimmedNonEmptyLines]
  rfl

/-! ## Interval (`saveInterval`, lines 355-413) -/

/-- Model of JS `parseInt` restricted to the non-negative decimal strings the
interval editor produces (preset option values and the numeric input's value):
the longest digit prefix, `none` standing for `NaN`. -/
def parseIntNat (s : String) : Option Nat :=
  match s.data.takeWhile (fun c => c.isDigit) with
  | [] => none
  | ds => some (ds.foldl (fun a c => a * 10 + (c.toNat - 48)) 0)

/-- Observable outcome of `saveInterval`: emitted events, pending-map key,
the `row.dataset.interval*` attributes, and the `.interval-text` markup. -/
structure IntervalSaveOut where
  emits : List Emit
  pendingUuid : Option String
  rowUseDefaultAttr : String
  rowHoursAttr : Option String
  rowMinutesAttr : Option String
  displayText : String
  deriving DecidableEq, Repr

/-- `saveInterval(uuid, value, row, cell)`, lines 355-413. `value` is the
dropdown's value (`"default"` or a decimal string) or the custom input's
value. A non-`"default"` value that `parseInt` cannot read is `NaN` in JS and
produces a malformed payload; it is modelled as `none`. -/
def saveInterval (uuid value : String) (hasSocket : Bool) : Option IntervalSaveOut :=
  if value = "default" then
    some { emits := if hasSocket then [Emit.watchUpdate uuid Updates.intervalDefault] else []
           pendingUuid := some uuid
           rowUseDefaultAttr := "true"
           rowHoursAttr := none
           rowMinutesAttr := none
           displayText := "<span class=\"interval-default\">Default</span>" }
  else
    match parseIntNat value with
    | none => none
    | some minutes =>
        some { emits :=
                 if hasSocket then
                   [Emit.watchUpdate uuid (Updates.interval 0 0 (minutes / 60) (minutes % 60) 0)]
                 else []
               pendingUuid := some uuid
               rowUseDefaultAttr := "false"
               rowHoursAttr := some (toString (minutes / 60))
               rowMinutesAttr := some (toString (minutes % 60))
               displayText :=
                 if minutes ≥ 1440 then toString (minutes / 1440) ++ "d"
                 else if minutes ≥ 60 then toString (minutes / 60) ++ "h"
                 else toString minutes ++ "m" }

/-- C3: for every preset interval value `v`, saving emits a `watch_update`
whose updates are `{time_between_check_use_default: false, time_between_check:
{weeks: 0, days: 0, hours: v / 60, minutes: v % 60, seconds: 0}}`
(`Updates.interval` denotes exactly that object shape). -/
theorem saveInterval_preset_payload (uuid : String) :
    ∀ v ∈ [1, 5, 15, 30, 60, 180, 360, 720, 1440],
      (saveInterval uuid (toString v) true).map IntervalSaveOut.emits =
        some [Emit.watchUpdate uuid (Updates.interval 0 0 (v / 60) (v % 60) 0)] := by
  intro v hv
  fin_cases hv <;> rfl

theorem saveInterval_preset_payload_witness :
    (1440 ∈ [1, 5, 15, 30, 60, 180, 360, 720, 1440]) ∧
    ((saveInterval "u1" (toString 1440) true).map IntervalSaveOut.emits =
      some [Emit.watchUpdate "u1" (Updates.interval 0 0 (1440 / 60) (1440 % 60) 0)]) :=
  ⟨by decide, saveInterval_preset_payload "u1" 1440 (by decide)⟩

/-! ## Tags (`editTags` save handler, lines 449-453, and `saveTags`,
lines 456-488) -/

/-- One entry of the tag catalog collected by `collectAllTags` from the tag
filter bar: `{uuid, title}`. -/
structure Tag where
  uuid : String
  tagTitle : String
  deriving DecidableEq, Repr

/-- `escapeHtml` (lines 629-633): the browser serialises a text node escaping
`&`, `<` and `>`. -/
def escapeHtml (s : String) : String :=
  s.data.foldl (fun acc c =>
    if c = '&' then acc ++ "&amp;"
    else if c = '<' then acc ++ "&lt;"
    else if c = '>' then acc ++ "&gt;"
    else acc.push c) ""

/-- The badge markup built for a known tag (line 477). -/
def renderBadge (tagTitle : String) : String :=
  "<span class=\"db-tag-badge\">" ++ escapeHtml tagTitle ++ "</span>"

/-- Observable outcome of `saveTags`: emitted events, pending-map key, the
`row.dataset.tags` attribute, the rendered badge strings (in order), and the
final `.tags-list` markup. -/
structure TagsSaveOut where
  emits : List Emit
  pendingUuid : Option String
  rowTagsAttr : String
  badges : List String
  tagsListHTML : String
  deriving DecidableEq, Repr

/-- `saveTags(uuid, tagUuids, row, cell)`, lines 456-488. The badge list is
`tagUuids.map(...).filter(b => b)` over the catalog lookup, exactly as in the
source; unknown identifiers map to `''` and are filtered out. -/
def saveTags (allTags : List Tag) (uuid : String) (tagUuids : List String)
    (hasSocket : Bool) : TagsSaveOut :=
  let badges :=
    (tagUuids.map (fun tagUuid =>
        match allTags.find? (fun t => t.uuid = tagUuid) with
        | some t => renderBadge t.tagTitle
        | none => "")).filter (fun b => b ≠ "")
  { emits := if hasSocket then [Emit.watchUpdate uuid (Updates.tags tagUuids)] else []
    pendingUuid := some uuid
    rowTagsAttr := String.intercalate "," tagUuids
    badges := badges
    tagsListHTML :=
      if tagUuids.length ≠ 0 then
        let joined := String.join badges
        if joined ≠ "" then joined else "<span class=\"no-tags\">-</span>"
      else "<span class=\"no-tags\">-</span>" }

/-- Specification-side description of the redisplayed badges: the catalog
titles of the identifiers found in the catalog, in checked order, identifiers
absent from the catalog silently omitted. -/
def catalogTitles (allTags : List Tag) : List String → List String
  | [] => []
  | tagUuid :: rest =>
      match allTags.find? (fun t => t.uuid = tagUuid) with
      | some t => t.tagTitle :: catalogTitles allTags rest
      | none => catalogTitles allTags rest

theorem renderBadge_ne_empty (t : String) : renderBadge t ≠ "" := by
  intro h
  have h2 : (renderBadge t).data = [] := by rw [h]
  have h3 : (renderBadge t).data
      = "<span class=\"db-tag-badge\">".data ++ (escapeHtml t).data ++ "</span>".data := rfl
  rw [h3] at h2
  rcases List.append_eq_nil.mp h2 with ⟨h4, _⟩
  rcases List.append_eq_nil.mp h4 with ⟨h6, _⟩
  exact absurd h6 (by decide)

theorem saveTags_badges_eq_catalogTitles (allTags : List Tag) (uuid : String)
    (tagUuids : List String) (hasSocket : Bool) :
    (saveTags allTags uuid tagUuids hasSocket).badges
      = (catalogTitles allTags tagUuids).map renderBadge := by
  show ((tagUuids.map _).filter _) = _
  induction tagUuids with
  | nil => rfl
  | cons tagUuid rest ih =>
      rw [List.map_cons, List.filter_cons]
      simp only [catalogTitles]
      simp only [ne_eq, decide_not] at ih
      cases hf : allTags.find? (fun t => t.uuid = tagUuid) with
      | some t => simp [ih, renderBadge_ne_empty t.tagTitle]
      | none => simp [ih]

/-- C5: `saveTags` emits the checked identifiers exactly, in display order,
and the redisplayed badges are the catalog titles of the identifiers found in
the catalog, unknown identifiers silently omitted from the badges but kept in
the payload. -/
theorem saveTags_payload_and_badges (allTags : List Tag) (uuid : String)
    (tagUuids : List String) :
    (saveTags allTags uuid tagUuids true).emits
      = [Emit.watchUpdate uuid (Updates.tags tagUuids)] ∧
    (saveTags allTags uuid tagUuids true).badges
      = (catalogTitles allTags tagUuids).map renderBadge :=
  ⟨rfl, saveTags_badges_eq_catalogTitles allTags uuid tagUuids true⟩

/-! ## Socket acknowledgements (`bindSocketEvents`, lines 20-44)

`pendingUpdates` is a JS `Map` keyed by uuid; it is modelled as an association
list with unique keys (a JS `Map` holds at most one entry per key). The entry
value is reduced to the cell it references. -/

/-- A `pendingUpdates` entry, reduced to the referenced cell. -/
structure AckPending where
  cellId : Nat
  deriving DecidableEq, Repr

/-- `Map.get`: the value at `k`, if present. -/
def mapGet {α : Type} (m : List (String × α)) (k : String) : Option α :=
  (m.find? (fun p => p.1 = k)).map Prod.snd

/-- `Map.delete`: remove the entry at `k`. -/
def mapDelete {α : Type} (m : List (String × α)) (k : String) : List (String × α) :=
  m.filter (fun p => p.1 ≠ k)

/-- JS `data.error || 'Update failed'`: `undefined` and the empty string are
both falsy. -/
def jsOrString (v : Option String) (fallback : String) : String :=
  match v with
  | some s => if s = "" then fallback else s
  | none => fallback

/-- The controller state the `update_result` listener touches: the pending
map, the toast list (`showError` appends a toast), the cells flashed by
`showSuccess`, and the cell markups, which the listener never writes (no
rollback of optimistic changes). -/
structure AckState where
  pendingUpdates : List (String × AckPending)
  toasts : List String
  successCells : List Nat
  cellMarkup : List (Nat × String)
  deriving DecidableEq, Repr

/-- The `update_result` payload `{success, uuid, error?}`. -/
structure UpdateResultMsg where
  success : Bool
  uuid : String
  error : Option String
  deriving DecidableEq, Repr

/-- The `update_result` listener (lines 23-37): on success with a pending
entry, flash the cell and drop the entry; on failure with a pending entry,
show `data.error || 'Update failed'` as a toast and drop the entry; with no
pending entry, do nothing. -/
def handleUpdateResult (st : AckState) (d : UpdateResultMsg) : AckState :=
  if d.success then
    match mapGet st.pendingUpdates d.uuid with
    | some p =>
        { st with successCells := p.cellId :: st.successCells
                  pendingUpdates := mapDelete st.pendingUpdates d.uuid }
    | none => st
  else
    match mapGet st.pendingUpdates d.uuid with
    | some _ =>
        { st with toasts := jsOrString d.error "Update failed" :: st.toasts
                  pendingUpdates := mapDelete st.pendingUpdates d.uuid }
    | none => st

theorem mapGet_mapDelete_self {α : Type} (m : List (String × α)) (k : String) :
    mapGet (mapDelete m k) k = none := by
  unfold mapGet mapDelete
  rw [Option.map_eq_none', List.find?_eq_none]
  intro p hp
  have := (List.mem_filter.mp hp).2
  simp only [ne_eq, decide_not, Bool.not_eq_true', decide_eq_false_iff_not] at this
  simpa using this

/-- C6: a failed `update_result` whose uuid has a pending entry shows a toast
with the server error (or the fallback `"Update failed"` when absent), removes
the pending entry, and changes nothing else — in particular no cell markup is
reverted. -/
theorem updateResult_failure_with_pending (st : AckState) (u : String)
    (err : Option String) (p : AckPending)
    (h : mapGet st.pendingUpdates u = some p) :
    (handleUpdateResult st ⟨false, u, err⟩).toasts
      = jsOrString err "Update failed" :: st.toasts ∧
    mapGet (handleUpdateResult st ⟨false, u, err⟩).pendingUpdates u = none ∧
    (handleUpdateResult st ⟨false, u, err⟩).cellMarkup = st.cellMarkup ∧
    (handleUpdateResult st ⟨false, u, err⟩).successCells = st.successCells := by
  unfold handleUpdateResult
  rw [if_neg (by exact Bool.false_ne_true), h]
  exact ⟨rfl, mapGet_mapDelete_self st.pendingUpdates u, rfl, rfl⟩

theorem updateResult_failure_with_pending_witness :
    (mapGet ([("u1", ⟨3⟩)] : List (String × AckPending)) "u1" = some ⟨3⟩) ∧
    ((handleUpdateResult ⟨[("u1", ⟨3⟩)], [], [], [(3, "<b>old</b>")]⟩
        ⟨false, "u1", some "disk full"⟩).toasts
      = jsOrString (some "disk full") "Update failed" :: [] ∧
     mapGet (handleUpdateResult ⟨[("u1", ⟨3⟩)], [], [], [(3, "<b>old</b>")]⟩
        ⟨false, "u1", some "disk full"⟩).pendingUpdates "u1" = none ∧
     (handleUpdateResult ⟨[("u1", ⟨3⟩)], [], [], [(3, "<b>old</b>")]⟩
        ⟨false, "u1", some "disk full"⟩).cellMarkup = [(3, "<b>old</b>")] ∧
     (handleUpdateResult ⟨[("u1", ⟨3⟩)], [], [], [(3, "<b>old</b>")]⟩
        ⟨false, "u1", some "disk full"⟩).successCells = []) :=
  ⟨by decide, updateResult_failure_with_pending
    ⟨[("u1", ⟨3⟩)], [], [], [(3, "<b>old</b>")]⟩ "u1" (some "disk full") ⟨3⟩ (by decide)⟩

/-- C10: a failed `update_result` whose uuid has no pending entry is a
complete no-op: no toast, no state change. -/
theorem updateResult_failure_without_pending (st : AckState) (u : String)
    (err : Option String) (h : mapGet st.pendingUpdates u = none) :
    handleUpdateResult st ⟨false, u, err⟩ = st := by
  unfold handleUpdateResult
  rw [if_neg (by exact Bool.false_ne_true), h]

theorem updateResult_failure_without_pending_witness :
    (mapGet ([("other", ⟨7⟩)] : List (String × AckPending)) "u1" = none) ∧
    (handleUpdateResult ⟨[("other", ⟨7⟩)], ["earlier"], [5], [(3, "x")]⟩
        ⟨false, "u1", some "disk full"⟩
      = ⟨[("other", ⟨7⟩)], ["earlier"], [5], [(3, "x")]⟩) :=
  ⟨by decide, updateResult_failure_without_pending
    ⟨[("other", ⟨7⟩)], ["earlier"], [5], [(3, "x")]⟩ "u1" (some "disk full") (by decide)⟩

/-! ## Toggle buttons (`toggleOperation`, lines 490-536) -/

/-- The row state `toggleOperation` touches: CSS class list and the optional
`.status-dot` / `.status-text` descendants (`querySelector` may find none). -/
structure RowM where
  classes : List String
  statusDotClass : Option String
  statusTextContent : Option String
  deriving DecidableEq, Repr

/-- The toggle button's state: `dataset.op`, `innerHTML`, `title`. -/
structure BtnM where
  op : String
  innerHTML : String
  btnTitle : String
  deriving DecidableEq, Repr

/-- `classList.add`: idempotent append. -/
def addClass (cs : List String) (c : String) : List String :=
  if c ∈ cs then cs else cs ++ [c]

/-- `classList.remove`. -/
def removeClass (cs : List String) (c : String) : List String :=
  cs.filter (fun x => x ≠ c)

/-- The op normalisation of lines 494-496: `unpause → pause`,
`unmute → mute`. -/
def normalizeOp (op : String) : String :=
  if op = "unpause" then "pause" else if op = "unmute" then "mute" else op

/-- Outcome of `toggleOperation`: emitted events and the flipped row/button
state. -/
structure ToggleOut where
  emits : List Emit
  row : RowM
  btn : BtnM
  deriving DecidableEq, Repr

/-- `toggleOperation(uuid, op, btn, row)`, lines 490-536: emit the normalised
op (when a socket exists), then flip the local UI state according to the raw
op. -/
def toggleOperation (uuid op : String) (row : RowM) (btn : BtnM)
    (hasSocket : Bool) : ToggleOut :=
  let emits := if hasSocket then [Emit.watchOperation (normalizeOp op) uuid] else []
  if op = "pause" then
    { emits := emits
      row := { classes := addClass row.classes "paused"
               statusDotClass := row.statusDotClass.map (fun _ => "status-dot status-paused")
               statusTextContent := row.statusTextContent.map (fun _ => "Paused") }
      btn := { op := "unpause", innerHTML := "&#9654;", btnTitle := "Unpause" } }
  else if op = "unpause" then
    { emits := emits
      row := { classes := removeClass row.classes "paused"
               statusDotClass := row.statusDotClass.map (fun _ => "status-dot status-ok")
               statusTextContent := row.statusTextContent.map (fun _ => "OK") }
      btn := { op := "pause", innerHTML := "&#10074;&#10074;", btnTitle := "Pause" } }
  else if op = "mute" then
    { emits := emits
      row := { row with classes := addClass row.classes "notification_muted" }
      btn := { op := "unmute"
               innerHTML := "<span class=\"notify-muted\">&#128277;</span>"
               btnTitle := "Unmute notifications" } }
  else if op = "unmute" then
    { emits := emits
      row := { row with classes := removeClass row.classes "notification_muted" }
      btn := { op := "mute"
               innerHTML := "<span class=\"notify-active\">&#128276;</span>"
               btnTitle := "Mute notifications" } }
  else
    { emits := emits, row := row, btn := btn }

theorem mem_addClass (cs : List String) (c : String) : c ∈ addClass cs c := by
  unfold addClass
  by_cases h : c ∈ cs
  · rwa [if_pos h]
  · rw [if_neg h]
    exact List.mem_append_right cs (List.mem_singleton.mpr rfl)

theorem not_mem_removeClass (cs : List String) (c : String) : c ∉ removeClass cs c := by
  intro h
  have := (List.mem_filter.mp h).2
  simp at this

/-- C8: each toggle activation emits `watch_operation` with the normalised op
(`unpause → pause`, `unmute → mute`) and flips the local state: `pause` adds
the `paused` row class and sets the button action to `unpause`; `unpause`
removes it and sets the action to `pause`; `mute`/`unmute` do the same with
`notification_muted`. -/
theorem toggleOperation_flips (uuid : String) (row : RowM) (btn : BtnM) :
    ((toggleOperation uuid "pause" row btn true).emits
        = [Emit.watchOperation "pause" uuid] ∧
      "paused" ∈ (toggleOperation uuid "pause" row btn true).row.classes ∧
      (toggleOperation uuid "pause" row btn true).btn.op = "unpause") ∧
    ((toggleOperation uuid "unpause" row btn true).emits
        = [Emit.watchOperation "pause" uuid] ∧
      "paused" ∉ (toggleOperation uuid "unpause" row btn true).row.classes ∧
      (toggleOperation uuid "unpause" row btn true).btn.op = "pause") ∧
    ((toggleOperation uuid "mute" row btn true).emits
        = [Emit.watchOperation "mute" uuid] ∧
      "notification_muted" ∈ (toggleOperation uuid "mute" row btn true).row.classes ∧
      (toggleOperation uuid "mute" row btn true).btn.op = "unmute") ∧
    ((toggleOperation uuid "unmute" row btn true).emits
        = [Emit.watchOperation "mute" uuid] ∧
      "notification_muted" ∉ (toggleOperation uuid "unmute" row btn true).row.classes ∧
      (toggleOperation uuid "unmute" row btn true).btn.op = "mute") :=
  ⟨⟨rfl, mem_addClass row.classes "paused", rfl⟩,
   ⟨rfl, not_mem_removeClass row.classes "paused", rfl⟩,
   ⟨rfl, mem_addClass row.classes "notification_muted", rfl⟩,
   ⟨rfl, not_mem_removeClass row.classes "notification_muted", rfl⟩⟩

/-! ## Edit-session and popover lifecycle (`bindEvents` lines 64-97,
`startEdit` lines 121-141, `createPopover` lines 538-591, `closePopover`
lines 593-603, `cancelEdit` lines 605-614)

The lifecycle is a transition system over the controller's session state.
`docPopovers` counts `.edit-popover` elements in the document; `focusLog`
records every cell the controller calls `.focus()` on, most recent first.
`titleCommit` models blur/Enter on the title input; that input exists in the
DOM exactly while a title session is active (every exit path of a title
session overwrites the cell's content), so the event applies only then. -/

/-- The `activeEdit` session data relevant to the lifecycle:
`{ cell, uuid, field }`. -/
structure Session where
  cellId : Nat
  uuid : String
  field : String
  deriving DecidableEq, Repr

/-- Lifecycle state: the active session, whether `activePopover` is set, the
number of popover elements in the document, and the focus log. -/
structure LState where
  activeEdit : Option Session
  popoverOpen : Bool
  docPopovers : Nat
  focusLog : List Nat
  deriving DecidableEq, Repr

/-- The three fields edited through a popover (`startEdit` dispatch). -/
def isPopoverField (f : String) : Bool :=
  f = "watch_words" || f = "time_between_check" || f = "tags"

/-- `closePopover` (lines 593-603): remove the active popover if any, focus
the session's cell if a session exists, clear the session. -/
def closePopoverM (s : LState) : LState :=
  let s1 :=
    if s.popoverOpen then
      { s with popoverOpen := false, docPopovers := s.docPopovers - 1 }
    else s
  let s2 :=
    match s1.activeEdit with
    | some sess => { s1 with focusLog := sess.cellId :: s1.focusLog }
    | none => s1
  { s2 with activeEdit := none }

/-- `createPopover` (lines 538-591): first `closePopover()`, then append one
new popover element to the document. -/
def createPopoverM (s : LState) : LState :=
  let s1 := closePopoverM s
  { s1 with popoverOpen := true, docPopovers := s1.docPopovers + 1 }

/-- `cancelEdit` (lines 605-614): restore a title cell's markup if the session
stored one (markup is outside this state), then `closePopover()`. -/
def cancelEditM (s : LState) : LState := closePopoverM s

/-- `startEdit` (lines 121-141): dispatch on the cell's field. A title edit
swaps the cell content for an input and sets `activeEdit`; a popover field
opens a popover and sets `activeEdit`; an unknown field is a no-op. -/
def startEditM (cellId : Nat) (uuid field : String) (s : LState) : LState :=
  if field = "title" then
    { s with activeEdit := some ⟨cellId, uuid, field⟩ }
  else if isPopoverField field then
    let s1 := createPopoverM s
    { s1 with activeEdit := some ⟨cellId, uuid, field⟩ }
  else s

/-- User/DOM events driving the lifecycle. -/
inductive Ev where
  | activate (cellId : Nat) (uuid field : String)
  | escape
  | outsideClick
  | cancelClick
  | saveClick
  | titleCommit
  deriving DecidableEq, Repr

/-- One lifecycle transition, following the handlers bound in `bindEvents`
and in the popovers: activation is suppressed while a session is active
(lines 68, 78); Escape cancels when a session is active (lines 85-89);
outside clicks cancel only when a popover is open (lines 92-96); the popover
Cancel/Save buttons exist only while a popover is open; a popover save ends
with `closePopover()`; a title commit runs `saveTitle`, which clears
`activeEdit` without focusing or touching any popover. -/
def step (s : LState) (e : Ev) : LState :=
  match e with
  | .activate cellId uuid field =>
      if s.activeEdit.isSome then s else startEditM cellId uuid field s
  | .escape => if s.activeEdit.isSome then cancelEditM s else s
  | .outsideClick => if s.popoverOpen then cancelEditM s else s
  | .cancelClick => if s.popoverOpen then cancelEditM s else s
  | .saveClick => if s.popoverOpen then closePopoverM s else s
  | .titleCommit =>
      match s.activeEdit with
      | some sess => if sess.field = "title" then { s with activeEdit := none } else s
      | none => s

/-- The controller's state right after construction: no session, no popover. -/
def initState : LState := ⟨none, false, 0, []⟩

/-- The state after a sequence of events from initialisation. -/
def run (evs : List Ev) : LState := evs.foldl step initState

/-- The popover-count invariant: the document holds exactly one popover when
`activePopover` is set and none otherwise. -/
def PopInv (s : LState) : Prop :=
  s.docPopovers = if s.popoverOpen then 1 else 0

theorem closePopoverM_popoverOpen (s : LState) :
    (closePopoverM s).popoverOpen = false := by
  unfold closePopoverM
  by_cases hp : s.popoverOpen <;> cases hA : s.activeEdit <;> simp [hp, hA]

theorem popInv_closePopoverM {s : LState} (h : PopInv s) :
    PopInv (closePopoverM s) := by
  unfold PopInv at h ⊢
  unfold closePopoverM
  by_cases hp : s.popoverOpen <;> cases hA : s.activeEdit <;>
    simp_all [hp, hA]

theorem popInv_createPopoverM {s : LState} (h : PopInv s) :
    PopInv (createPopoverM s) := by
  have h1 := popInv_closePopoverM h
  have h2 := closePopoverM_popoverOpen s
  unfold PopInv at h1 ⊢
  unfold createPopoverM
  simp [h2] at h1
  simp [h1]

theorem popInv_step {s : LState} (e : Ev) (h : PopInv s) : PopInv (step s e) := by
  cases e with
  | activate cellId uuid field =>
      by_cases hA : s.activeEdit.isSome
      · simpa [step, hA]
      · simp only [step, hA, if_false, Bool.false_eq_true, ite_false]
        unfold startEditM
        by_cases ht : field = "title"
        · simpa [ht, PopInv] using h
        · by_cases hpf : isPopoverField field
          · have := popInv_createPopoverM h
            simpa [ht, hpf, PopInv] using this
          · simpa [ht, hpf]
  | escape =>
      by_cases hA : s.activeEdit.isSome <;>
        simp [step, hA, cancelEditM, popInv_closePopoverM h, h]
  | outsideClick =>
      by_cases hp : s.popoverOpen <;>
        simp [step, hp, cancelEditM, popInv_closePopoverM h, h]
  | cancelClick =>
      by_cases hp : s.popoverOpen <;>
        simp [step, hp, cancelEditM, popInv_closePopoverM h, h]
  | saveClick =>
      by_cases hp : s.popoverOpen <;>
        simp [step, hp, popInv_closePopoverM h, h]
  | titleCommit =>
      cases hA : s.activeEdit with
      | some sess =>
          by_cases ht : sess.field = "title" <;>
            simpa [step, hA, ht, PopInv] using h
      | none => simpa [step, hA]

theorem popInv_run (evs : List Ev) : PopInv (run evs) := by
  unfold run
  have general : ∀ (l : List Ev) (s : LState), PopInv s → PopInv (l.foldl step s) := by
    intro l
    induction l with
    | nil => intro s h; exact h
    | cons e rest ih => intro s h; exact ih (step s e) (popInv_step e h)
  exact general evs initState rfl

/-- C7: every reachable state holds at most one popover; opening a popover
first removes any existing one (the document count does not grow past its
current value when one is open, and ends at exactly one); and activating a
cell while a session is active is a no-op. -/
theorem popover_lifecycle_invariant :
    (∀ evs : List Ev, (run evs).docPopovers ≤ 1) ∧
    (∀ (s : LState) (c : Nat) (u f : String),
        s.activeEdit.isSome → step s (Ev.activate c u f) = s) ∧
    (∀ s : LState, PopInv s →
        (createPopoverM s).popoverOpen = true ∧ (createPopoverM s).docPopovers = 1) := by
  refine ⟨?_, ?_, ?_⟩
  · intro evs
    have h := popInv_run evs
    unfold PopInv at h
    rw [h]
    by_cases hp : (run evs).popoverOpen <;> simp [hp]
  · intro s c u f hA
    simp [step, hA]
  · intro s h
    refine ⟨rfl, ?_⟩
    have h1 := popInv_closePopoverM h
    have h2 := closePopoverM_popoverOpen s
    unfold PopInv at h1
    rw [h2] at h1
    show (closePopoverM s).docPopovers + 1 = 1
    simp at h1
    simp [h1]

theorem popover_lifecycle_invariant_witness :
    ((⟨some ⟨1, "u", "title"⟩, false, 0, []⟩ : LState).activeEdit.isSome = true) ∧
    (PopInv ⟨some ⟨1, "u", "title"⟩, true, 1, []⟩) ∧
    step ⟨some ⟨1, "u", "title"⟩, false, 0, []⟩ (Ev.activate 2 "v" "tags")
      = ⟨some ⟨1, "u", "title"⟩, false, 0, []⟩ ∧
    ((createPopoverM ⟨some ⟨1, "u", "title"⟩, true, 1, []⟩).popoverOpen = true ∧
      (createPopoverM ⟨some ⟨1, "u", "title"⟩, true, 1, []⟩).docPopovers = 1) :=
  ⟨rfl, rfl,
   popover_lifecycle_invariant.2.1 ⟨some ⟨1, "u", "title"⟩, false, 0, []⟩ 2 "v" "tags" rfl,
   popover_lifecycle_invariant.2.2 ⟨some ⟨1, "u", "title"⟩, true, 1, []⟩ rfl⟩

/-- C9 counterexample: a title edit session (cell 5) ended by committing the
edit (blur/Enter save) terminates the session with NO focus call at all — the
focus log stays empty, so focus is not restored to the originating cell. -/
theorem titleCommit_restores_no_focus :
    (run [Ev.activate 5 "u" "title"]).activeEdit = some ⟨5, "u", "title"⟩ ∧
    (run [Ev.activate 5 "u" "title", Ev.titleCommit]).activeEdit = none ∧
    (run [Ev.activate 5 "u" "title", Ev.titleCommit]).focusLog = [] :=
  ⟨rfl, rfl, rfl⟩

/-- C9 amended: Escape, and — while a popover is open — outside click, the
Cancel button and the Save button, all restore focus to the originating cell;
committing a title edit (save via blur/Enter) ends the session without
restoring focus. -/
theorem session_end_focus_restoration (s : LState) (sess : Session)
    (h : s.activeEdit = some sess) :
    ((step s Ev.escape).focusLog = sess.cellId :: s.focusLog) ∧
    (s.popoverOpen = true →
      (step s Ev.outsideClick).focusLog = sess.cellId :: s.focusLog ∧
      (step s Ev.cancelClick).focusLog = sess.cellId :: s.focusLog ∧
      (step s Ev.saveClick).focusLog = sess.cellId :: s.focusLog) ∧
    (sess.field = "title" → (step s Ev.titleCommit).focusLog = s.focusLog) := by
  refine ⟨?_, ?_, ?_⟩
  · by_cases hp2 : s.popoverOpen <;>
      simp [step, cancelEditM, closePopoverM, h, hp2]
  · intro hp
    refine ⟨?_, ?_, ?_⟩ <;> simp [step, cancelEditM, closePopoverM, h, hp]
  · intro ht
    simp [step, h, ht]

theorem session_end_focus_restoration_witness :
    ((⟨some ⟨3, "u", "title"⟩, true, 1, []⟩ : LState).activeEdit
        = some ⟨3, "u", "title"⟩) ∧
    ((⟨some ⟨3, "u", "title"⟩, true, 1, []⟩ : LState).popoverOpen = true) ∧
    ((⟨3, "u", "title"⟩ : Session).field = "title") ∧
    ((step ⟨some ⟨3, "u", "title"⟩, true, 1, []⟩ Ev.escape).focusLog = [3] ∧
     ((step ⟨some ⟨3, "u", "title"⟩, true, 1, []⟩ Ev.outsideClick).focusLog = [3] ∧
      (step ⟨some ⟨3, "u", "title"⟩, true, 1, []⟩ Ev.cancelClick).focusLog = [3] ∧
      (step ⟨some ⟨3, "u", "title"⟩, true, 1, []⟩ Ev.saveClick).focusLog = [3]) ∧
     (step ⟨some ⟨3, "u", "title"⟩, true, 1, []⟩ Ev.titleCommit).focusLog = []) := by
  have h := session_end_focus_restoration
    ⟨some ⟨3, "u", "title"⟩, true, 1, []⟩ ⟨3, "u", "title"⟩ rfl
  exact ⟨rfl, rfl, rfl, h.1, h.2.1 rfl, h.2.2 rfl⟩

end InlineEdit
